import Mathlib

/-!
Verification of the speech-synthesis adapter core of the AI-Call-Answering-Agent
repository.  The definitions below are shallow embeddings of the TypeScript
sources:

* `src/src/lib/speak.ts`   — the `speak` function with its `processText` body and
  the chunked `streamAudio` loop, plus the `Speaker` class variant contained in
  the same file;
* `src/unnamed/part_000`   — the TTS provider module (`makeTTS`, `AzureTTS`,
  `HttpCoquiTTS`, `CoquiLocalTTS`, the module-level LRU cache);
* `src/unnamed/part_001`   — `sanitizeForTTS` (SSML sanitizer), the
  WAV-silence helper, and the cache-key hasher (`getCacheKey`).

Bytes are modelled as `Nat`, audio buffers as `List Nat`, JS strings as Lean
`String`/`List Char`, thrown JS `Error` values by their message `String`, and
fallible code with `Except String`.  External collaborators (the axios network
call, the SHA-1 function of node's crypto module) are explicit parameters.
-/

namespace TTSAgent

/-! ## Chunking constants (src/src/lib/speak.ts, lines 4-7) -/

/-- 16kHz, 16-bit mono: 320 ms chunks. -/
def CHUNK_SIZE_MS : Nat := 320

/-- 16kHz * 16-bit / 8 bits = 32 bytes/ms. -/
def BYTES_PER_MS : Nat := 32

/-- `CHUNK_SIZE_MS * BYTES_PER_MS` = 10240 bytes per chunk. -/
def CHUNK_SIZE_BYTES : Nat := CHUNK_SIZE_MS * BYTES_PER_MS

/-! ## The streaming loop (`streamAudio`, src/src/lib/speak.ts lines 99-129)

The loop is embedded as a trace of observable events.  At iteration `i` the
loop's position is `i * CHUNK_SIZE_BYTES` (the position advances by exactly one
chunk per iteration).  The stop signal is modelled by the schedule
`stopObs : Nat → Bool`: `stopObs i` is the value of the `Promise.race` between
the (monotone) stop promise and the 10 ms timeout at check `i`.  The sink
(`onChunk` / `streamTo`) is modelled by `sinkRes : Nat → Option String`:
`none` means the `i`-th sink call resolves, `some e` means it rejects with
error message `e` (which `streamAudio` propagates to its caller).
The recursion is totalised with a fuel argument; `streamEvents` supplies
`buf.length + 1` fuel, which is more than the number of loop iterations. -/

inductive SEvent where
  | deliver (chunk : List Nat)
  | stopObserved
  | sinkFail (e : String)
deriving DecidableEq, Repr

def streamAux (buf : List Nat) (stopObs : Nat → Bool) (sinkRes : Nat → Option String) :
    Nat → Nat → List SEvent
  | 0, _ => []
  | fuel + 1, i =>
    if i * CHUNK_SIZE_BYTES < buf.length then
      -- audioData.slice(position, min(position + CHUNK_SIZE_BYTES, totalLength))
      let chunk := (buf.drop (i * CHUNK_SIZE_BYTES)).take CHUNK_SIZE_BYTES
      if stopObs i then [SEvent.stopObserved]
      else
        match sinkRes i with
        | none => SEvent.deliver chunk :: streamAux buf stopObs sinkRes fuel (i + 1)
        | some e => [SEvent.deliver chunk, SEvent.sinkFail e]
    else []

/-- One full run of `streamAudio` over `buf`, as its event trace. -/
def streamEvents (buf : List Nat) (stopObs : Nat → Bool) (sinkRes : Nat → Option String) :
    List SEvent :=
  streamAux buf stopObs sinkRes (buf.length + 1) 0

/-- The chunks passed to the sink, in delivery order. -/
def deliveredChunks : List SEvent → List (List Nat)
  | [] => []
  | SEvent.deliver c :: evs => c :: deliveredChunks evs
  | _ :: evs => deliveredChunks evs

/-- The error of the first rejecting sink call, if any (it propagates out of
`streamAudio` and is caught by `processText`). -/
def firstSinkError : List SEvent → Option String
  | [] => none
  | SEvent.sinkFail e :: _ => some e
  | _ :: evs => firstSinkError evs

/-- Whether the loop halted because it observed the stop signal. -/
def sawStop : List SEvent → Bool
  | [] => false
  | SEvent.stopObserved :: _ => true
  | _ :: evs => sawStop evs

/-- Concatenation of a list of chunks. -/
def concatAll : List (List Nat) → List Nat
  | [] => []
  | c :: cs => c ++ concatAll cs

/-- Number of chunks `streamAudio` cuts a buffer of length `L` into:
`ceil (L / CHUNK_SIZE_BYTES)`. -/
def numChunks (L : Nat) : Nat := (L + CHUNK_SIZE_BYTES - 1) / CHUNK_SIZE_BYTES

example : CHUNK_SIZE_BYTES = 10240 := by decide

example :
    streamEvents [7, 8] (fun _ => false) (fun _ => none) = [SEvent.deliver [7, 8]] := by
  decide

example :
    deliveredChunks (streamEvents [7, 8] (fun i => decide (1 ≤ i)) (fun _ => none)) =
      [[7, 8]] := by
  decide

/-! ## Generic facts about the streaming loop -/

theorem chunkSizeBytes_eq : CHUNK_SIZE_BYTES = 10240 := rfl

theorem streamAux_nil_of_le (buf : List Nat) (stopObs : Nat → Bool)
    (sinkRes : Nat → Option String) (fuel i : Nat)
    (h : buf.length ≤ i * CHUNK_SIZE_BYTES) :
    streamAux buf stopObs sinkRes fuel i = [] := by
  cases fuel with
  | zero => rfl
  | succ f => simp [streamAux, Nat.not_lt.mpr h]

/-- Whatever the stop schedule and the sink behaviour do, the chunks passed to
the sink concatenate to a contiguous piece of the buffer starting at the
current position. -/
theorem streamAux_concat_piece (buf : List Nat) (stopObs : Nat → Bool)
    (sinkRes : Nat → Option String) :
    ∀ fuel i, ∃ rest,
      concatAll (deliveredChunks (streamAux buf stopObs sinkRes fuel i)) ++ rest =
        buf.drop (i * CHUNK_SIZE_BYTES) := by
  intro fuel
  induction fuel with
  | zero => exact fun i => ⟨buf.drop (i * CHUNK_SIZE_BYTES), rfl⟩
  | succ f ih =>
    intro i
    by_cases h : i * CHUNK_SIZE_BYTES < buf.length
    · have harith : i * CHUNK_SIZE_BYTES + CHUNK_SIZE_BYTES = (i + 1) * CHUNK_SIZE_BYTES := by
        ring
      have hs : (buf.drop (i * CHUNK_SIZE_BYTES)).drop CHUNK_SIZE_BYTES =
          buf.drop ((i + 1) * CHUNK_SIZE_BYTES) := by
        rw [List.drop_drop, harith]
      simp only [streamAux, if_pos h]
      cases hstop : stopObs i with
      | true =>
        exact ⟨buf.drop (i * CHUNK_SIZE_BYTES), by simp [deliveredChunks, concatAll]⟩
      | false =>
        cases hsink : sinkRes i with
        | none =>
          obtain ⟨rest, hrest⟩ := ih (i + 1)
          refine ⟨rest, ?_⟩
          simp only [deliveredChunks, concatAll, List.append_assoc]
          rw [hrest, ← hs, List.take_append_drop]
        | some e =>
          refine ⟨(buf.drop (i * CHUNK_SIZE_BYTES)).drop CHUNK_SIZE_BYTES, ?_⟩
          simp [deliveredChunks, concatAll, List.take_append_drop]
    · exact ⟨buf.drop (i * CHUNK_SIZE_BYTES),
        by rw [streamAux_nil_of_le buf stopObs sinkRes _ _ (Nat.not_lt.mp h)]; rfl⟩

/-- A complete run (stop never observed, sink never failing) over the part of
the buffer from position `i * CHUNK_SIZE_BYTES` on: the deliveries split into
full chunks followed by a final (possibly partial) chunk. -/
theorem streamAux_complete_run (buf : List Nat) :
    ∀ fuel i, buf.length ≤ i * CHUNK_SIZE_BYTES + fuel * CHUNK_SIZE_BYTES →
      i * CHUNK_SIZE_BYTES < buf.length →
      ∃ pre last,
        deliveredChunks (streamAux buf (fun _ => false) (fun _ => none) fuel i) =
          pre ++ [last] ∧
        concatAll (pre ++ [last]) = buf.drop (i * CHUNK_SIZE_BYTES) ∧
        (pre ++ [last]).length = numChunks (buf.length - i * CHUNK_SIZE_BYTES) ∧
        (∀ c ∈ pre, c.length = CHUNK_SIZE_BYTES) ∧
        last.length = (if (buf.length - i * CHUNK_SIZE_BYTES) % CHUNK_SIZE_BYTES = 0
          then CHUNK_SIZE_BYTES else (buf.length - i * CHUNK_SIZE_BYTES) % CHUNK_SIZE_BYTES) := by
  intro fuel
  induction fuel with
  | zero =>
    intro i h0 hlt
    exact absurd hlt (by simpa using h0)
  | succ f ih =>
    intro i h0 hlt
    simp only [streamAux, if_pos hlt]
    by_cases h2 : buf.length ≤ (i + 1) * CHUNK_SIZE_BYTES
    · refine ⟨[], (buf.drop (i * CHUNK_SIZE_BYTES)).take CHUNK_SIZE_BYTES, ?_, ?_, ?_, ?_, ?_⟩
      · rw [streamAux_nil_of_le buf _ _ f (i + 1) h2]
        rfl
      · have hlen : (buf.drop (i * CHUNK_SIZE_BYTES)).length ≤ CHUNK_SIZE_BYTES := by
          rw [List.length_drop]
          simp only [chunkSizeBytes_eq] at h2 ⊢
          omega
        simp [concatAll, List.take_of_length_le hlen]
      · simp only [List.nil_append, List.length_singleton, numChunks]
        simp only [chunkSizeBytes_eq] at hlt h2 ⊢
        omega
      · intro c hc
        simp at hc
      · rw [List.length_take, List.length_drop]
        simp only [chunkSizeBytes_eq] at hlt h2 ⊢
        split_ifs with hm
        · omega
        · omega
    · have hlt' : (i + 1) * CHUNK_SIZE_BYTES < buf.length := Nat.not_le.mp h2
      have h0' : buf.length ≤ (i + 1) * CHUNK_SIZE_BYTES + f * CHUNK_SIZE_BYTES := by
        simp only [chunkSizeBytes_eq] at h0 ⊢
        omega
      obtain ⟨pre, last, hds, hcat, hlen, hpre, hlast⟩ := ih (i + 1) h0' hlt'
      have harith : i * CHUNK_SIZE_BYTES + CHUNK_SIZE_BYTES = (i + 1) * CHUNK_SIZE_BYTES := by
        ring
      have hs : (buf.drop (i * CHUNK_SIZE_BYTES)).drop CHUNK_SIZE_BYTES =
          buf.drop ((i + 1) * CHUNK_SIZE_BYTES) := by
        rw [List.drop_drop, harith]
      refine ⟨(buf.drop (i * CHUNK_SIZE_BYTES)).take CHUNK_SIZE_BYTES :: pre, last, ?_, ?_, ?_, ?_, ?_⟩
      · rw [List.cons_append]
        simp only [deliveredChunks]
        rw [hds]
      · rw [List.cons_append]
        simp only [concatAll]
        rw [hcat, ← hs, List.take_append_drop]
      · rw [List.cons_append, List.length_cons, hlen]
        simp only [numChunks]
        simp only [chunkSizeBytes_eq] at hlt' ⊢
        omega
      · intro c hc
        rcases List.mem_cons.mp hc with hc | hc
        · subst hc
          rw [List.length_take, List.length_drop]
          simp only [chunkSizeBytes_eq] at hlt' ⊢
          omega
        · exact hpre c hc
      · rw [hlast]
        have hmod : (buf.length - (i + 1) * CHUNK_SIZE_BYTES) % CHUNK_SIZE_BYTES =
            (buf.length - i * CHUNK_SIZE_BYTES) % CHUNK_SIZE_BYTES := by
          simp only [chunkSizeBytes_eq] at hlt' ⊢
          omega
        rw [hmod]

/-- C4: a full, unstopped, error-free run of `streamAudio` over a non-empty
buffer of length `L` delivers exactly `ceil (L / 10240)` chunks; their
in-order concatenation is exactly the buffer (so delivery is strictly in
buffer order), every chunk but the last has exactly `CHUNK_SIZE_BYTES = 10240`
bytes, and the last has `L mod 10240` bytes (or `10240` when `10240 ∣ L`). -/
theorem claim_C4_chunk_count_and_sizes (buf : List Nat) (hne : buf ≠ []) :
    ∃ pre last,
      deliveredChunks (streamEvents buf (fun _ => false) (fun _ => none)) = pre ++ [last] ∧
      (pre ++ [last]).length = numChunks buf.length ∧
      concatAll (pre ++ [last]) = buf ∧
      (∀ c ∈ pre, c.length = CHUNK_SIZE_BYTES) ∧
      last.length = (if buf.length % CHUNK_SIZE_BYTES = 0 then CHUNK_SIZE_BYTES
        else buf.length % CHUNK_SIZE_BYTES) := by
  have hlt : 0 * CHUNK_SIZE_BYTES < buf.length := by
    simpa using List.length_pos.mpr hne
  have h0 : buf.length ≤ 0 * CHUNK_SIZE_BYTES + (buf.length + 1) * CHUNK_SIZE_BYTES := by
    rw [chunkSizeBytes_eq]
    omega
  obtain ⟨pre, last, hds, hcat, hlen, hpre, hlast⟩ :=
    streamAux_complete_run buf (buf.length + 1) 0 h0 hlt
  exact ⟨pre, last, by simpa [streamEvents] using hds, by simpa using hlen,
    by simpa using hcat, hpre, by simpa using hlast⟩

/-- Witness for C4: a concrete 3-byte buffer yields one chunk of 3 bytes. -/
theorem claim_C4_chunk_count_and_sizes_witness :
    ([0, 1, 2] : List Nat) ≠ [] ∧
    (∃ pre last,
      deliveredChunks (streamEvents [0, 1, 2] (fun _ => false) (fun _ => none)) = pre ++ [last] ∧
      (pre ++ [last]).length = numChunks ([0, 1, 2] : List Nat).length ∧
      concatAll (pre ++ [last]) = [0, 1, 2] ∧
      (∀ c ∈ pre, c.length = CHUNK_SIZE_BYTES) ∧
      last.length = (if ([0, 1, 2] : List Nat).length % CHUNK_SIZE_BYTES = 0 then CHUNK_SIZE_BYTES
        else ([0, 1, 2] : List Nat).length % CHUNK_SIZE_BYTES)) :=
  ⟨by decide, claim_C4_chunk_count_and_sizes [0, 1, 2] (by decide)⟩

/-! ## `sanitizeForTTS` (src/unnamed/part_001, lines 5-38)

The sanitizer is embedded over `List Char` (JS strings are sequences of
code units; all inputs of interest stay within the basic plane, where Lean's
`Char` and JS code units agree).  Each regex of the source is implemented by
the left-to-right, leftmost-match scan that JS `String.prototype.replace`
with a global regex performs.  Recursions that consume more than one
character per step are totalised with a fuel argument; fuel equal to the
input length suffices because every step consumes at least one character. -/

/-- Decimal digits of a natural number (the JS template `${placeholderIndex}`).
Fuel-totalised division loop. -/
def natDigitsAux : Nat → Nat → List Char → List Char
  | 0, _, acc => acc
  | fuel + 1, n, acc =>
    if n < 10 then Char.ofNat (48 + n) :: acc
    else natDigitsAux fuel (n / 10) (Char.ofNat (48 + n % 10) :: acc)

def natDigits (n : Nat) : List Char := natDigitsAux (n + 1) n []

/-- The internal marker `__PLACEHOLDER_<i>__`. -/
def markerChars (i : Nat) : List Char :=
  "__PLACEHOLDER_".data ++ natDigits i ++ "__".data

/-- Scan `[^\x7b\x7d]*\x7d` after an opening brace; `acc` holds the match so
far.  Returns `(matched text, remainder)` on success. -/
def placeholderScan : List Char → List Char → Option (List Char × List Char)
  | [], _ => none
  | c :: rest, acc =>
    if c = '}' then some (acc ++ [c], rest)
    else if c = '{' then none
    else placeholderScan rest (acc ++ [c])

/-- Attempt to match the placeholder regex `\x7b[^\x7b\x7d]*\x7d` at the head. -/
def placeholderAt : List Char → Option (List Char × List Char)
  | [] => none
  | c :: rest => if c = '{' then placeholderScan rest [c] else none

/-- `text.replace(/\x7b[^\x7b\x7d]*\x7d/g, cb)` where the callback replaces the
k-th match by `markerChars k` and records `(marker, original)` in insertion
order — the `placeholderMap` of the source. -/
def extractPlaceholders : Nat → List Char → Nat → List Char × List (List Char × List Char)
  | 0, s, _ => (s, [])
  | fuel + 1, s, i =>
    match s with
    | [] => ([], [])
    | c :: rest =>
      match placeholderAt (c :: rest) with
      | some (matched, after) =>
        let m := markerChars i
        let (t, ps) := extractPlaceholders fuel after (i + 1)
        (m ++ t, (m, matched) :: ps)
      | none =>
        let (t, ps) := extractPlaceholders fuel rest i
        (c :: t, ps)

/-- Scan `[^>]*>`: skip to just past the next closing angle bracket. -/
def tagScan : List Char → Option (List Char)
  | [] => none
  | c :: rest => if c = '>' then some rest else tagScan rest

/-- Attempt to match `<[^>]*>` at the head; returns the remainder. -/
def tagAt : List Char → Option (List Char)
  | [] => none
  | c :: rest => if c = '<' then tagScan rest else none

/-- `.replace(/<[^>]*>/g, '')` — remove HTML/SSML tags. -/
def removeTags : Nat → List Char → List Char
  | 0, s => s
  | fuel + 1, s =>
    match s with
    | [] => []
    | c :: rest =>
      match tagAt (c :: rest) with
      | some after => removeTags fuel after
      | none => c :: removeTags fuel rest

/-- The class of control and non-printable characters the source deletes:
U+0000-U+001F, U+007F-U+009F, U+200B-U+200D, U+2028-U+202F, U+205F, U+2060, U+3000, U+FEFF. -/
def isStrippedChar (c : Char) : Bool :=
  let n := c.toNat
  (n ≤ 0x1F) || (0x7F ≤ n && n ≤ 0x9F) || (0x200B ≤ n && n ≤ 0x200D) ||
  (0x2028 ≤ n && n ≤ 0x202F) || n = 0x205F || n = 0x2060 || n = 0x3000 || n = 0xFEFF

/-- Smart single quotes (U+2018, U+2019) to the ASCII apostrophe. -/
def mapSmartQuote (c : Char) : Char :=
  if c.toNat = 0x2018 || c.toNat = 0x2019 then Char.ofNat 39 else c

/-- Smart double quotes (U+201C, U+201D) to the ASCII double quote. -/
def mapDoubleQuote (c : Char) : Char :=
  if c.toNat = 0x201C || c.toNat = 0x201D then Char.ofNat 34 else c

/-- En and em dashes (U+2013, U+2014) to the ASCII hyphen. -/
def mapDash (c : Char) : Char :=
  if c.toNat = 0x2013 || c.toNat = 0x2014 then Char.ofNat 45 else c

/-- The ellipsis character (U+2026) expands to three ASCII dots. -/
def expandEllipsis : List Char → List Char
  | [] => []
  | c :: rest =>
    (if c.toNat = 0x2026 then ['.', '.', '.'] else [c]) ++ expandEllipsis rest

/-- The class of Unicode space variants the source collapses to one ASCII
space: U+00A0, U+1680, U+2000-U+200A, U+202F, U+205F, U+3000. -/
def isUniSpace (c : Char) : Bool :=
  let n := c.toNat
  n = 0xA0 || n = 0x1680 || (0x2000 ≤ n && n ≤ 0x200A) ||
  n = 0x202F || n = 0x205F || n = 0x3000

/-- Replace every maximal run of characters satisfying `p` by one ASCII
space (`.replace(/[class]+/g, ' ')`). -/
def collapseRuns (p : Char → Bool) : Nat → List Char → List Char
  | 0, s => s
  | _ + 1, [] => []
  | fuel + 1, c :: rest =>
    if p c then ' ' :: collapseRuns p fuel (rest.dropWhile p)
    else c :: collapseRuns p fuel rest

/-- The JS `\s` class (also the character set removed by `String.trim`). -/
def isJsWhitespace (c : Char) : Bool :=
  let n := c.toNat
  n = 0x9 || n = 0xA || n = 0xB || n = 0xC || n = 0xD || n = 0x20 || n = 0xA0 ||
  n = 0x1680 || (0x2000 ≤ n && n ≤ 0x200A) || n = 0x2028 || n = 0x2029 ||
  n = 0x202F || n = 0x205F || n = 0x3000 || n = 0xFEFF

/-- `String.prototype.trim`. -/
def jsTrim (s : List Char) : List Char :=
  ((s.dropWhile isJsWhitespace).reverse.dropWhile isJsWhitespace).reverse

/-- Whether `pat` is an initial segment of `s`. -/
def listStarts : List Char → List Char → Bool
  | [], _ => true
  | _ :: _, [] => false
  | p :: ps, c :: cs => p = c && listStarts ps cs

/-- Split `s` around the first occurrence of `pat`:
`some (before, after)` with `s = before ++ pat ++ after`. -/
def splitAtFirst (pat : List Char) : List Char → Option (List Char × List Char)
  | [] => if listStarts pat [] then some ([], []) else none
  | c :: rest =>
    if listStarts pat (c :: rest) then some ([], (c :: rest).drop pat.length)
    else
      match splitAtFirst pat rest with
      | some (b, a) => some (c :: b, a)
      | none => none

/-- The `$`-substitution JS performs in the replacement string of
`String.prototype.replace` (string search, no capture groups):
`$$` → `$`, `$&` → matched text, `$` + backquote → text before the match,
`$'` → text after the match; anything else is literal. -/
def dollarSubst (matched before after : List Char) : List Char → List Char
  | [] => []
  | c :: rest =>
    if c = '$' then
      match rest with
      | [] => [c]
      | d :: rest2 =>
        if d = '$' then c :: dollarSubst matched before after rest2
        else if d = '&' then matched ++ dollarSubst matched before after rest2
        else if d.toNat = 96 then before ++ dollarSubst matched before after rest2
        else if d.toNat = 39 then after ++ dollarSubst matched before after rest2
        else c :: dollarSubst matched before after (d :: rest2)
    else c :: dollarSubst matched before after rest

/-- `sanitized.replace(key, value)` — replace the first occurrence of the
plain string `key` by `value` (with `$`-substitution in `value`); if `key`
does not occur, return `s` unchanged. -/
def replaceFirst (s pat repl : List Char) : List Char :=
  match splitAtFirst pat s with
  | none => s
  | some (b, a) => b ++ dollarSubst pat b a repl ++ a

/-- `placeholderMap.forEach((value, key) => sanitized = sanitized.replace(key, value))`
in insertion order. -/
def restoreAll : List (List Char × List Char) → List Char → List Char
  | [], s => s
  | (m, v) :: rest, s => restoreAll rest (replaceFirst s m v)

/-- The cleanup pipeline of `sanitizeForTTS` applied to the marker-protected
text, in source order, followed by placeholder restoration. -/
def sanitizeChars (text : List Char) : List Char :=
  let ws := extractPlaceholders text.length text 0
  let s1 := removeTags ws.1.length ws.1
  let s2 := s1.filter (fun c => !isStrippedChar c)
  let s3 := s2.map mapSmartQuote
  let s4 := s3.map mapDoubleQuote
  let s5 := s4.map mapDash
  let s6 := expandEllipsis s5
  let s7 := collapseRuns isUniSpace s6.length s6
  let s8 := jsTrim s7
  let s9 := collapseRuns isJsWhitespace s8.length s8
  restoreAll ws.2 s9

/-- `sanitizeForTTS` (src/unnamed/part_001 lines 5-38): `if (!text) return ''`
followed by the marker-protect / cleanup / restore pipeline. -/
def sanitizeForTTS (text : String) : String :=
  if text = "" then "" else String.mk (sanitizeChars text.data)

example : sanitizeForTTS "  hello   world " = "hello world" := by decide

example : sanitizeForTTS "a {name} b" = "a {name} b" := by decide

example : sanitizeForTTS "<speak>hi</speak>" = "hi" := by decide

/-- C3: both halves of the claim fail on the code.
(1) A placeholder wrapped in markup is destroyed: on `"<{a}>"` the protection
pass turns the text into `<__PLACEHOLDER_0__>`, the tag-stripping regex then
deletes the whole bracketed span including the marker, and the restore pass
finds nothing to restore — the output is `""` and the placeholder `\x7ba\x7d`
does not survive (contradicting the function's own doc comment,
"Preserves placeholders like \x7bname\x7d and \x7b0\x7d").
(2) Idempotence fails: on `"<{z}> {b} __PLACEHOLDER_1__ {c}"` the marker for
the destroyed placeholder `\x7bz\x7d` is lost, the literal marker text
`__PLACEHOLDER_1__` in the input collides with the generated marker for
`\x7bb\x7d`, and the first-occurrence restore then shifts under a second
application: one application yields `"{b} __PLACEHOLDER_1__ {c}"`, a second
yields `"{b} {c} __PLACEHOLDER_1__"`. -/
theorem claim_C3_sanitize_not_idempotent_and_drops_placeholder :
    sanitizeForTTS "<{a}>" = "" ∧
    sanitizeForTTS "<{z}> {b} __PLACEHOLDER_1__ {c}" = "{b} __PLACEHOLDER_1__ {c}" ∧
    sanitizeForTTS (sanitizeForTTS "<{z}> {b} __PLACEHOLDER_1__ {c}") =
      "{b} {c} __PLACEHOLDER_1__" ∧
    sanitizeForTTS (sanitizeForTTS "<{z}> {b} __PLACEHOLDER_1__ {c}") ≠
      sanitizeForTTS "<{z}> {b} __PLACEHOLDER_1__ {c}" := by
  refine ⟨by decide, by decide, by decide, by decide⟩

/-! ## Locales (src/unnamed/part_000, line 25) -/

inductive Locale where
  | enIN
  | hiIN
  | mrIN
deriving DecidableEq, Repr

/-- The locale's string form (the `Locale` union type of the source). -/
def localeCode : Locale → String
  | Locale.enIN => "en-IN"
  | Locale.hiIN => "hi-IN"
  | Locale.mrIN => "mr-IN"

/-! ## Environment, cache and provider factory (src/unnamed/part_000)

`process.env` is modelled by a record of the four variables the module reads
(`none` = unset); JS falsiness of `env.X` (`if (!key) throw ...`) treats both
`undefined` and the empty string as absent. -/

structure Env where
  TTS_PROVIDER : Option String
  TTS_KEY : Option String
  AZURE_REGION : Option String
  TTS_HTTP_URL : Option String

/-- JS falsiness of an optional environment string. -/
def strOptFalsy : Option String → Bool
  | none => true
  | some s => decide (s = "")

/-- `String.prototype.toLowerCase` restricted to ASCII (which covers every
provider configuration value of interest). -/
def lowerChar (c : Char) : Char :=
  if 65 ≤ c.toNat && c.toNat ≤ 90 then Char.ofNat (c.toNat + 32) else c

def toLowerAscii (s : String) : String := String.mk (s.data.map lowerChar)

/-- Substring occurrence (used to state that an error message names a value). -/
def occursIn (pat : List Char) : List Char → Bool
  | [] => listStarts pat []
  | c :: rest => listStarts pat (c :: rest) || occursIn pat rest

def strContains (s sub : String) : Bool := occursIn sub.data s.data

/-- The configuration the `AzureTTS` constructor stores (lines 95-110). -/
structure AzureCfg where
  key : String
  region : String
  endpoint : String
deriving DecidableEq, Repr

/-- `new AzureTTS()`: `if (!key) throw`, `if (!region) throw`, otherwise store
key, region and the regional endpoint. -/
def azureTTSNew (env : Env) : Except String AzureCfg :=
  match env.TTS_KEY with
  | none => Except.error "TTS_KEY is required in environment variables"
  | some key =>
    if key = "" then Except.error "TTS_KEY is required in environment variables"
    else
      match env.AZURE_REGION with
      | none => Except.error "AZURE_REGION is required in environment variables"
      | some region =>
        if region = "" then Except.error "AZURE_REGION is required in environment variables"
        else Except.ok
          { key := key, region := region,
            endpoint := "https://" ++ region ++ ".tts.speech.microsoft.com/cognitiveservices/v1" }

/-- The constructor body contains no axios call: threading a counter of
network invocations through construction leaves it unchanged. -/
def azureTTSNewTraced (env : Env) (netCalls : Nat) : Except String AzureCfg × Nat :=
  (azureTTSNew env, netCalls)

/-- `baseUrl.replace(/\/$/, '')` — drop one trailing slash when present. -/
def stripTrailingSlash (s : List Char) : List Char :=
  match s.reverse with
  | c :: rest => if c = '/' then rest.reverse else s
  | [] => s

/-- `new HttpCoquiTTS()` (lines 40-46): requires `TTS_HTTP_URL`, stores
`<baseUrl minus trailing slash>/synth`. -/
def httpCoquiNew (env : Env) : Except String String :=
  match env.TTS_HTTP_URL with
  | none => Except.error "TTS_HTTP_URL is required for HTTP Coqui TTS"
  | some baseUrl =>
    if baseUrl = "" then Except.error "TTS_HTTP_URL is required for HTTP Coqui TTS"
    else Except.ok (String.mk (stripTrailingSlash baseUrl.data) ++ "/synth")

/-- The three provider variants `makeTTS` can return. -/
inductive TTSEngineV where
  | azure (cfg : AzureCfg)
  | coquiLocal
  | coquiHttp (endpoint : String)
deriving DecidableEq, Repr

/-- `makeTTS()` (lines 170-183):
`const provider = env.TTS_PROVIDER?.toLowerCase() || 'azure'` followed by the
switch; the default branch throws naming the (lowercased) provider value. -/
def makeTTS (env : Env) : Except String TTSEngineV :=
  let provider :=
    match env.TTS_PROVIDER with
    | none => "azure"
    | some s => if toLowerAscii s = "" then "azure" else toLowerAscii s
  if provider = "azure" then
    match azureTTSNew env with
    | Except.error e => Except.error e
    | Except.ok cfg => Except.ok (TTSEngineV.azure cfg)
  else if provider = "coqui" then Except.ok TTSEngineV.coquiLocal
  else if provider = "coqui_http" then
    match httpCoquiNew env with
    | Except.error e => Except.error e
    | Except.ok endp => Except.ok (TTSEngineV.coquiHttp endp)
  else Except.error ("Unsupported TTS provider: " ++ provider)

/-- `getCacheKey(text, locale) = locale + ":" + sha1(text)`
(src/unnamed/part_001 lines 100-102); node crypto's SHA-1 hex digest is an
external collaborator and is passed in as a function. -/
def getCacheKey (sha1 : String → String) (text locale : String) : String :=
  locale ++ ":" ++ sha1 text

/-- Cache configuration (lines 8-9): 10 minutes, 100 items. -/
def TTS_CACHE_TTL_MS : Nat := 10 * 60 * 1000

def TTS_CACHE_MAX_ITEMS : Nat := 100

/-- The module-level `lru-cache` instance, entries most-recent-first:
`(key, bytes, start-of-TTL-clock in ms)`. -/
abbrev TTSCache := List (String × List Nat × Nat)

/-- `ttsCache.get(k)` at time `now`: a present entry younger than the TTL is
a hit; with `updateAgeOnGet: true` its TTL clock restarts and it moves to the
front.  A missing or stale entry is a miss.  (Whether an entry of age exactly
TTL counts as stale does not matter for the claims, which stay strictly
inside the TTL.) -/
def cacheGet (cache : TTSCache) (k : String) (now : Nat) :
    Option (List Nat) × TTSCache :=
  match cache.find? (fun e => e.1 == k) with
  | none => (none, cache)
  | some (k', v, t) =>
    if now - t < TTS_CACHE_TTL_MS then
      (some v, (k', v, now) :: cache.filter (fun e => !(e.1 == k)))
    else (none, cache)

/-- `ttsCache.set(k, v)` at `now`: insert most-recent with a fresh TTL clock,
dropping any previous entry for `k` and evicting beyond `max` items
(least-recently-used last in this ordering). -/
def cacheSet (cache : TTSCache) (k : String) (v : List Nat) (now : Nat) : TTSCache :=
  ((k, v, now) :: cache.filter (fun e => !(e.1 == k))).take TTS_CACHE_MAX_ITEMS

/-- Mutable state an `HttpCoquiTTS.synth` call touches: the shared cache and
(for observability) the number of network requests issued so far. -/
structure HttpState where
  cache : TTSCache
  netCalls : Nat
deriving DecidableEq, Repr

/-- `HttpCoquiTTS.synth` (lines 48-92): sanitize, compute the cache key,
return a fresh cached entry without touching the network; otherwise POST
`{text, locale}` — the `network` parameter models axios (indexed by how many
requests were issued before; `Except.error` covers transport errors and the
non-ArrayBuffer response check) — cache the bytes on success, and on failure
wrap the error in `TTS synthesis failed: ...` caching nothing. -/
def httpCoquiSynth (sha1 : String → String) (network : Nat → Except String (List Nat))
    (text : String) (locale : Locale) (now : Nat) (st : HttpState) :
    Except String (List Nat) × HttpState :=
  let sanitizedText := sanitizeForTTS text
  let cacheKey := getCacheKey sha1 sanitizedText (localeCode locale)
  match cacheGet st.cache cacheKey now with
  | (some cached, cache2) => (Except.ok cached, { cache := cache2, netCalls := st.netCalls })
  | (none, cache2) =>
    match network st.netCalls with
    | Except.ok audioData =>
      (Except.ok audioData,
        { cache := cacheSet cache2 cacheKey audioData now, netCalls := st.netCalls + 1 })
    | Except.error e =>
      (Except.error ("TTS synthesis failed: " ++ e),
        { cache := cache2, netCalls := st.netCalls + 1 })

/-! ## The `speak` function (src/src/lib/speak.ts lines 35-97)

`speak` builds a `processText` closure and runs it.  `processText` optionally
rewrites the text, calls `makeTTS()`, awaits `tts.synth`, streams the audio
through `streamAudio`, and fires `onDone` unless stopped; its single
`catch` fires `onError` (at most once) unless stopped, and the promise it
returns never rejects.  The embedding records the externally observable
effects of one invocation:

* `synthCalls`  — how often the provider's `synth` was invoked;
* `sinkCalls`   — how often the sink (`streamTo`/`onChunk`) was invoked;
* `errorCbs`    — the error values passed to the `onError` callback, in order
  (JS delivers `Error` objects, which are never null; they are modelled by
  their message string);
* `doneCalls`   — how often `onDone` was invoked;
* `rejected`    — `some e` iff the promise handed back to the caller rejects.

The rewriter and the provider factory are explicit parameters
(`makeTTS()` may throw, hence the factory is an `Except`); `stopObs` and
`sinkRes` are the streaming schedules of `streamAux`; `stoppedAtSettle` is
the value of the `isStopped` flag when the invocation settles (`false`
whenever the caller never invoked `stop()`). -/

structure SpeakTrace where
  synthCalls : Nat
  sinkCalls : Nat
  errorCbs : List String
  doneCalls : Nat
  rejected : Option String
deriving DecidableEq, Repr

/-- Default rewriter that passes through text as-is
(src/src/lib/speak.ts lines 24-27). -/
def defaultRewriter : String → Except String String := fun text => Except.ok text

def processText (text : String) (locale : Locale) (rewrite : Bool)
    (rewriter : String → Except String String)
    (factory : Except String (String → Locale → Except String (List Nat)))
    (stopObs : Nat → Bool) (sinkRes : Nat → Option String)
    (stoppedAtSettle : Bool) : SpeakTrace :=
  -- if (options.rewrite && rewriter) finalText = await rewriter.rewriteWithinGuardrails(...)
  match (if rewrite then rewriter text else Except.ok text) with
  | Except.error e =>
    { synthCalls := 0, sinkCalls := 0,
      errorCbs := if stoppedAtSettle then [] else [e], doneCalls := 0, rejected := none }
  | Except.ok finalText =>
    -- const tts = makeTTS();
    match factory with
    | Except.error e =>
      { synthCalls := 0, sinkCalls := 0,
        errorCbs := if stoppedAtSettle then [] else [e], doneCalls := 0, rejected := none }
    | Except.ok synth =>
      -- const audioData = await tts.synth(finalText, options.locale);
      match synth finalText locale with
      | Except.error e =>
        { synthCalls := 1, sinkCalls := 0,
          errorCbs := if stoppedAtSettle then [] else [e], doneCalls := 0, rejected := none }
      | Except.ok audioData =>
        -- await streamAudio(audioData, options.streamTo, stopPromise);
        let evs := streamEvents audioData stopObs sinkRes
        match firstSinkError evs with
        | some e =>
          { synthCalls := 1, sinkCalls := (deliveredChunks evs).length,
            errorCbs := if stoppedAtSettle then [] else [e], doneCalls := 0, rejected := none }
        | none =>
          { synthCalls := 1, sinkCalls := (deliveredChunks evs).length,
            errorCbs := [],
            doneCalls := if sawStop evs || stoppedAtSettle then 0 else 1, rejected := none }

/-! ## The `Speaker` class (same file, lines 176-319 of the concatenated
source)

`Speaker.speak` differs from the function-style `speak`: its streaming loop
has no stop-race (it only rechecks `this.stopRequested`), a sink error is
caught inside the loop (logged, reported through `onErrorCallback`, then
`break` — the promise still resolves), but a rewriter or synthesis error is
reported through `onErrorCallback` and then RE-THROWN (`throw errorMessage`),
so the promise returned to the caller rejects.  The embedding covers a single
invocation on an idle instance with no concurrent `stop()` call; `onErrorSet`
says whether an `onError` listener is registered. -/

structure SpeakerTrace where
  synthCalls : Nat
  sinkCalls : Nat
  errorCbs : List String
  rejected : Option String
deriving DecidableEq, Repr

def speakerSpeak (text : String) (locale : Locale) (rewrite : Bool)
    (rewriter : String → Except String String)
    (synth : String → Locale → Except String (List Nat))
    (sinkRes : Nat → Option String) (onErrorSet : Bool) : SpeakerTrace :=
  match (if rewrite then rewriter text else Except.ok text) with
  | Except.error e =>
    { synthCalls := 0, sinkCalls := 0,
      errorCbs := if onErrorSet then [e] else [], rejected := some e }
  | Except.ok finalText =>
    match synth finalText locale with
    | Except.error e =>
      -- catch: console.error; onErrorCallback?.(e); cleanup(); throw errorMessage;
      { synthCalls := 1, sinkCalls := 0,
        errorCbs := if onErrorSet then [e] else [], rejected := some e }
    | Except.ok audioData =>
      -- while (position < totalLength && !this.stopRequested) { ... }
      -- (no stop requested, so the loop is the chunking loop of streamAudio
      -- without the stop race; a sink error breaks out without rethrowing)
      let evs := streamEvents audioData (fun _ => false) sinkRes
      match firstSinkError evs with
      | some e =>
        { synthCalls := 1, sinkCalls := (deliveredChunks evs).length,
          errorCbs := if onErrorSet then [e] else [], rejected := none }
      | none =>
        { synthCalls := 1, sinkCalls := (deliveredChunks evs).length,
          errorCbs := [], rejected := none }

/-- Does the trace contain a delivery? -/
def hasDeliver : List SEvent → Bool
  | [] => false
  | SEvent.deliver _ :: _ => true
  | _ :: evs => hasDeliver evs

/-- No chunk is delivered after the stop signal has been observed. -/
def noDeliverAfterStop : List SEvent → Bool
  | [] => true
  | SEvent.stopObserved :: evs => !hasDeliver evs
  | _ :: evs => noDeliverAfterStop evs

/-- In every run of the streaming loop, observing the stop signal ends the
trace: no delivery ever follows it. -/
theorem streamAux_noDeliverAfterStop (buf : List Nat) (stopObs : Nat → Bool)
    (sinkRes : Nat → Option String) :
    ∀ fuel i, noDeliverAfterStop (streamAux buf stopObs sinkRes fuel i) = true := by
  intro fuel
  induction fuel with
  | zero => intro i; rfl
  | succ f ih =>
    intro i
    by_cases h : i * CHUNK_SIZE_BYTES < buf.length
    · simp only [streamAux, if_pos h]
      cases hstop : stopObs i with
      | true => rfl
      | false =>
        cases hsink : sinkRes i with
        | none => simpa [noDeliverAfterStop] using ih (i + 1)
        | some e => rfl
    · rw [streamAux_nil_of_le buf stopObs sinkRes _ _ (Nat.not_lt.mp h)]
      rfl

/-- With the stop signal raised right after the first delivery (observed from
check 1 on) and a buffer longer than one chunk, the loop delivers the first
chunk and then halts. -/
theorem streamAux_stopAfterFirst (buf : List Nat) (fuel : Nat) (hfuel : 2 ≤ fuel)
    (hCL : CHUNK_SIZE_BYTES < buf.length) :
    streamAux buf (fun i => decide (1 ≤ i)) (fun _ => none) fuel 0 =
      [SEvent.deliver (buf.take CHUNK_SIZE_BYTES), SEvent.stopObserved] := by
  obtain ⟨f, rfl⟩ : ∃ f, fuel = f + 2 := ⟨fuel - 2, by omega⟩
  have h0 : 0 * CHUNK_SIZE_BYTES < buf.length := by
    simpa using Nat.lt_of_le_of_lt (Nat.zero_le _) hCL
  have h1 : 1 * CHUNK_SIZE_BYTES < buf.length := by simpa using hCL
  show streamAux buf _ _ (f + 1 + 1) 0 = _
  simp [streamAux, h0, h1]
  rw [if_pos (Nat.lt_of_le_of_lt (Nat.zero_le _) hCL), if_pos hCL]

/-- C6: over a buffer that chunks into 10 chunks, with the stop signal raised
immediately after the first chunk delivery (so that every stop check from the
second iteration on observes it), exactly one chunk is delivered — strictly
fewer than 10 — and no chunk is delivered after the stop signal is observed. -/
theorem claim_C6_stop_bounds_deliveries (buf : List Nat)
    (h10 : numChunks buf.length = 10) :
    (deliveredChunks (streamEvents buf (fun i => decide (1 ≤ i)) (fun _ => none))).length = 1 ∧
    (deliveredChunks (streamEvents buf (fun i => decide (1 ≤ i)) (fun _ => none))).length < 10 ∧
    noDeliverAfterStop (streamEvents buf (fun i => decide (1 ≤ i)) (fun _ => none)) = true := by
  have hCL : CHUNK_SIZE_BYTES < buf.length := by
    simp only [numChunks, chunkSizeBytes_eq] at h10
    simp only [chunkSizeBytes_eq]
    omega
  have hfuel : 2 ≤ buf.length + 1 := by
    simp only [chunkSizeBytes_eq] at hCL
    omega
  have hrw : streamEvents buf (fun i => decide (1 ≤ i)) (fun _ => none) =
      [SEvent.deliver (buf.take CHUNK_SIZE_BYTES), SEvent.stopObserved] := by
    rw [streamEvents]
    exact streamAux_stopAfterFirst buf (buf.length + 1) hfuel hCL
  rw [hrw]
  exact ⟨rfl, by simp [deliveredChunks], rfl⟩

/-- Witness for C6: a concrete buffer of 92161 bytes (which chunks into 10
chunks of 10240 bytes, the last partial) yields fewer than 10 deliveries. -/
theorem claim_C6_stop_bounds_deliveries_witness :
    numChunks (List.replicate 92161 (0 : Nat)).length = 10 ∧
    (deliveredChunks (streamEvents (List.replicate 92161 (0 : Nat))
        (fun i => decide (1 ≤ i)) (fun _ => none))).length < 10 :=
  ⟨by rw [numChunks, List.length_replicate, chunkSizeBytes_eq],
    (claim_C6_stop_bounds_deliveries (List.replicate 92161 (0 : Nat))
      (by rw [numChunks, List.length_replicate, chunkSizeBytes_eq])).2.1⟩

/-- C9: for every buffer, every stop schedule and every sink behaviour, the
chunks passed to the sink — concatenated in delivery order — form a prefix of
the buffer: no byte is delivered twice and none is skipped before delivery
halts. -/
theorem claim_C9_delivery_is_buffer_piece (buf : List Nat) (stopObs : Nat → Bool)
    (sinkRes : Nat → Option String) :
    ∃ rest, concatAll (deliveredChunks (streamEvents buf stopObs sinkRes)) ++ rest = buf := by
  obtain ⟨rest, h⟩ := streamAux_concat_piece buf stopObs sinkRes (buf.length + 1) 0
  exact ⟨rest, by simpa [streamEvents] using h⟩

/-- C1: `processText` has NO empty-text short-circuit.  With `text = ""` and a
provider whose `synth` succeeds with a one-byte buffer, the run invokes
`synth` once (with the empty string) and the sink once, then completes via
`onDone` — contradicting the claim (and the repository's own test
`should handle empty text`, which asserts that synth and the sink are never
invoked for empty text). -/
theorem claim_C1_empty_text_invokes_provider_and_sink :
    processText "" Locale.enIN false defaultRewriter
        (Except.ok fun _ _ => Except.ok [0]) (fun _ => false) (fun _ => none) false =
      { synthCalls := 1, sinkCalls := 1, errorCbs := [], doneCalls := 1, rejected := none } := by
  rfl

/-- C2 counterexample: for `Speaker.speak` with an always-failing provider the
error IS thrown back to the caller — the promise rejects with the synthesis
error (after the error callback was invoked once) — refuting the claim that
the promise returned to the caller of `speak()` does not reject. -/
theorem claim_C2_counterexample :
    speakerSpeak "Error test" Locale.enIN false defaultRewriter
        (fun _ _ => Except.error "TTS failed") (fun _ => none) true =
      { synthCalls := 1, sinkCalls := 0, errorCbs := ["TTS failed"],
        rejected := some "TTS failed" } := by
  rfl

/-- C2 (amended): with a provider whose `synth` always fails, both variants
invoke the error callback exactly once with the (non-null) synthesis error
and never invoke the sink; the function-style `speak` swallows the error (its
promise resolves), while `Speaker.speak` re-throws it (its promise rejects
with the same error). -/
theorem claim_C2_provider_failure_error_surfacing (text : String) (locale : Locale)
    (e : String) (sinkRes : Nat → Option String) (rewriter : String → Except String String) :
    processText text locale false rewriter (Except.ok fun _ _ => Except.error e)
        (fun _ => false) sinkRes false =
      { synthCalls := 1, sinkCalls := 0, errorCbs := [e], doneCalls := 0, rejected := none } ∧
    speakerSpeak text locale false rewriter (fun _ _ => Except.error e) sinkRes true =
      { synthCalls := 1, sinkCalls := 0, errorCbs := [e], rejected := some e } :=
  ⟨rfl, rfl⟩

/-! ## Facts about the provider factory and constructors -/

theorem azureTTSNew_err_key (env : Env) (h : strOptFalsy env.TTS_KEY = true) :
    azureTTSNew env = Except.error "TTS_KEY is required in environment variables" := by
  cases hk : env.TTS_KEY with
  | none => simp [azureTTSNew, hk]
  | some key =>
    rw [hk] at h
    simp only [strOptFalsy, decide_eq_true_eq] at h
    simp [azureTTSNew, hk, h]

theorem azureTTSNew_err_region (env : Env) (hk : strOptFalsy env.TTS_KEY = false)
    (hr : strOptFalsy env.AZURE_REGION = true) :
    azureTTSNew env = Except.error "AZURE_REGION is required in environment variables" := by
  cases hke : env.TTS_KEY with
  | none => rw [hke] at hk; simp [strOptFalsy] at hk
  | some key =>
    rw [hke] at hk
    simp only [strOptFalsy, decide_eq_false_iff_not] at hk
    cases hre : env.AZURE_REGION with
    | none => simp [azureTTSNew, hke, hk, hre]
    | some region =>
      rw [hre] at hr
      simp only [strOptFalsy, decide_eq_true_eq] at hr
      simp [azureTTSNew, hke, hk, hre, hr]

theorem azureTTSNew_ok (env : Env) (hk : strOptFalsy env.TTS_KEY = false)
    (hr : strOptFalsy env.AZURE_REGION = false) :
    ∃ cfg, azureTTSNew env = Except.ok cfg := by
  cases hke : env.TTS_KEY with
  | none => rw [hke] at hk; simp [strOptFalsy] at hk
  | some key =>
    rw [hke] at hk
    simp only [strOptFalsy, decide_eq_false_iff_not] at hk
    cases hre : env.AZURE_REGION with
    | none => rw [hre] at hr; simp [strOptFalsy] at hr
    | some region =>
      rw [hre] at hr
      simp only [strOptFalsy, decide_eq_false_iff_not] at hr
      exact ⟨AzureCfg.mk key region
        ("https://" ++ region ++ ".tts.speech.microsoft.com/cognitiveservices/v1"),
        by simp [azureTTSNew, hke, hk, hre, hr]⟩

/-- C7: constructing the cloud provider with a missing (JS-falsy) API key
fails immediately with an error naming `TTS_KEY`; with a key but a missing
region it fails naming `AZURE_REGION`; with both present it succeeds — and in
all cases construction performs no network call (the threaded request counter
is unchanged). -/
theorem claim_C7_cloud_provider_construction (env : Env) (n : Nat) :
    (strOptFalsy env.TTS_KEY = true →
      (azureTTSNewTraced env n).1 =
        Except.error "TTS_KEY is required in environment variables" ∧
      strContains "TTS_KEY is required in environment variables" "TTS_KEY" = true) ∧
    (strOptFalsy env.TTS_KEY = false → strOptFalsy env.AZURE_REGION = true →
      (azureTTSNewTraced env n).1 =
        Except.error "AZURE_REGION is required in environment variables" ∧
      strContains "AZURE_REGION is required in environment variables" "AZURE_REGION" = true) ∧
    (strOptFalsy env.TTS_KEY = false → strOptFalsy env.AZURE_REGION = false →
      ∃ cfg, (azureTTSNewTraced env n).1 = Except.ok cfg) ∧
    (azureTTSNewTraced env n).2 = n := by
  refine ⟨fun h => ⟨?_, by decide⟩, fun hk hr => ⟨?_, by decide⟩, fun hk hr => ?_, rfl⟩
  · simpa [azureTTSNewTraced] using azureTTSNew_err_key env h
  · simpa [azureTTSNewTraced] using azureTTSNew_err_region env hk hr
  · obtain ⟨cfg, hc⟩ := azureTTSNew_ok env hk hr
    exact ⟨cfg, by simpa [azureTTSNewTraced] using hc⟩

/-- Environment of the repository's tests with the key deleted. -/
def envNoKey : Env :=
  { TTS_PROVIDER := none, TTS_KEY := none, AZURE_REGION := some "eastus",
    TTS_HTTP_URL := none }

/-- Environment of the repository's tests with the region deleted. -/
def envNoRegion : Env :=
  { TTS_PROVIDER := none, TTS_KEY := some "test-key", AZURE_REGION := none,
    TTS_HTTP_URL := none }

/-- Environment of the repository's tests with key and region set. -/
def envFull : Env :=
  { TTS_PROVIDER := none, TTS_KEY := some "test-key", AZURE_REGION := some "eastus",
    TTS_HTTP_URL := none }

theorem claim_C7_cloud_provider_construction_witness :
    ((azureTTSNewTraced envNoKey 0).1 =
        Except.error "TTS_KEY is required in environment variables" ∧
      strContains "TTS_KEY is required in environment variables" "TTS_KEY" = true) ∧
    ((azureTTSNewTraced envNoRegion 0).1 =
        Except.error "AZURE_REGION is required in environment variables" ∧
      strContains "AZURE_REGION is required in environment variables" "AZURE_REGION" = true) ∧
    (∃ cfg, (azureTTSNewTraced envFull 0).1 = Except.ok cfg) :=
  ⟨(claim_C7_cloud_provider_construction envNoKey 0).1 (by decide),
   (claim_C7_cloud_provider_construction envNoRegion 0).2.1 (by decide) (by decide),
   (claim_C7_cloud_provider_construction envFull 0).2.2.1 (by decide) (by decide)⟩

theorem listStarts_self (l : List Char) : listStarts l l = true := by
  induction l with
  | nil => rfl
  | cons c cs ih => simp [listStarts, ih]

theorem occursIn_self (pat : List Char) : occursIn pat pat = true := by
  cases pat with
  | nil => rfl
  | cons c cs => simp [occursIn, listStarts_self]

theorem occursIn_append_left (pat : List Char) :
    ∀ pre, occursIn pat (pre ++ pat) = true := by
  intro pre
  induction pre with
  | nil => simpa using occursIn_self pat
  | cons c cs ih => simp [occursIn, ih]

theorem strData_append (a b : String) : (a ++ b).data = a.data ++ b.data := by
  cases a
  cases b
  rfl

theorem toLowerAscii_ne_empty (s : String) (h : s ≠ "") : toLowerAscii s ≠ "" := by
  cases s with
  | mk data =>
    cases data with
    | nil => exact absurd rfl h
    | cons c cs =>
      intro he
      have hd := congrArg String.data he
      simp [toLowerAscii] at hd

/-- Environment selecting an unrecognized provider with mixed case. -/
def envGcp : Env :=
  { TTS_PROVIDER := some "Gcp", TTS_KEY := none, AZURE_REGION := none,
    TTS_HTTP_URL := none }

/-- C8 counterexample: with `TTS_PROVIDER = "Gcp"` the factory throws
`Unsupported TTS provider: gcp` — the message names the LOWERCASED value and
does not contain the configured string `"Gcp"` itself, refuting the claim
that the error message names `s`. -/
theorem claim_C8_counterexample :
    makeTTS envGcp = Except.error "Unsupported TTS provider: gcp" ∧
    strContains "Unsupported TTS provider: gcp" "Gcp" = false :=
  ⟨rfl, by decide⟩

/-- C8 (amended): provider selection maps `azure`, `coqui`, `coqui_http`
case-insensitively to the cloud, local-stub and remote-HTTP variants (given
the configuration each constructor needs); any other non-empty value fails
fast with an error naming the lowercased form of the value. -/
theorem claim_C8_provider_selection (env : Env) (s : String)
    (hs : env.TTS_PROVIDER = some s) :
    (toLowerAscii s = "azure" → strOptFalsy env.TTS_KEY = false →
      strOptFalsy env.AZURE_REGION = false →
      ∃ cfg, makeTTS env = Except.ok (TTSEngineV.azure cfg)) ∧
    (toLowerAscii s = "coqui" → makeTTS env = Except.ok TTSEngineV.coquiLocal) ∧
    (toLowerAscii s = "coqui_http" → strOptFalsy env.TTS_HTTP_URL = false →
      ∃ endp, makeTTS env = Except.ok (TTSEngineV.coquiHttp endp)) ∧
    (s ≠ "" → toLowerAscii s ≠ "azure" → toLowerAscii s ≠ "coqui" →
      toLowerAscii s ≠ "coqui_http" →
      makeTTS env = Except.error ("Unsupported TTS provider: " ++ toLowerAscii s) ∧
      strContains ("Unsupported TTS provider: " ++ toLowerAscii s)
        (toLowerAscii s) = true) := by
  refine ⟨?_, ?_, ?_, ?_⟩
  · intro hl hk hr
    obtain ⟨cfg, hc⟩ := azureTTSNew_ok env hk hr
    exact ⟨cfg, by simp [makeTTS, hs, hl, hc]⟩
  · intro hl
    simp [makeTTS, hs, hl]
  · intro hl hu
    cases hue : env.TTS_HTTP_URL with
    | none => rw [hue] at hu; simp [strOptFalsy] at hu
    | some baseUrl =>
      rw [hue] at hu
      simp only [strOptFalsy, decide_eq_false_iff_not] at hu
      exact ⟨String.mk (stripTrailingSlash baseUrl.data) ++ "/synth",
        by simp [makeTTS, hs, hl, httpCoquiNew, hue, hu]⟩
  · intro hs0 h1 h2 h3
    have hlne : toLowerAscii s ≠ "" := toLowerAscii_ne_empty s hs0
    constructor
    · simp only [makeTTS, hs]
      rw [if_neg hlne, if_neg h1, if_neg h2, if_neg h3]
    · show occursIn (toLowerAscii s).data
        (("Unsupported TTS provider: " ++ toLowerAscii s).data) = true
      rw [strData_append]
      exact occursIn_append_left (toLowerAscii s).data ("Unsupported TTS provider: ").data

/-- Environment selecting the cloud provider with an upper-case value. -/
def envAzureSel : Env :=
  { TTS_PROVIDER := some "AZURE", TTS_KEY := some "test-key",
    AZURE_REGION := some "eastus", TTS_HTTP_URL := none }

theorem claim_C8_provider_selection_witness :
    (∃ cfg, makeTTS envAzureSel = Except.ok (TTSEngineV.azure cfg)) ∧
    (makeTTS envGcp = Except.error ("Unsupported TTS provider: " ++ toLowerAscii "Gcp") ∧
      strContains ("Unsupported TTS provider: " ++ toLowerAscii "Gcp")
        (toLowerAscii "Gcp") = true) :=
  ⟨(claim_C8_provider_selection envAzureSel "AZURE" rfl).1 (by decide) (by decide) (by decide),
   (claim_C8_provider_selection envGcp "Gcp" rfl).2.2.2 (by decide) (by decide)
     (by decide) (by decide)⟩

/-- C10: with `TTS_PROVIDER` unset or set to the empty string, `makeTTS`
selects the cloud (azure) variant: with no API key configured it fails with
the azure constructor's missing-credential error (not an
unsupported-provider error), and with key and region configured it returns
the azure variant. -/
theorem claim_C10_absent_provider_defaults_to_azure (env : Env)
    (hp : env.TTS_PROVIDER = none ∨ env.TTS_PROVIDER = some "") :
    (strOptFalsy env.TTS_KEY = true →
      makeTTS env = Except.error "TTS_KEY is required in environment variables") ∧
    (strOptFalsy env.TTS_KEY = false → strOptFalsy env.AZURE_REGION = false →
      ∃ cfg, makeTTS env = Except.ok (TTSEngineV.azure cfg)) := by
  have hprov : (match env.TTS_PROVIDER with
      | none => "azure"
      | some s => if toLowerAscii s = "" then "azure" else toLowerAscii s) = "azure" := by
    rcases hp with hp | hp
    · rw [hp]
    · rw [hp]
      rfl
  constructor
  · intro hk
    simp only [makeTTS]
    rw [hprov, if_pos rfl, azureTTSNew_err_key env hk]
  · intro hk hr
    obtain ⟨cfg, hc⟩ := azureTTSNew_ok env hk hr
    refine ⟨cfg, ?_⟩
    simp only [makeTTS]
    rw [hprov, if_pos rfl, hc]

/-! ## Facts about the caching provider -/

theorem cacheGet_nil (k : String) (now : Nat) :
    cacheGet ([] : TTSCache) k now = (none, []) := rfl

theorem cacheSet_nil (k : String) (v : List Nat) (t : Nat) :
    cacheSet [] k v t = [(k, v, t)] := by
  simp only [cacheSet, List.filter_nil]
  exact List.take_of_length_le (by norm_num [TTS_CACHE_MAX_ITEMS])

theorem cacheGet_hit (k : String) (v : List Nat) (t now : Nat)
    (h : now - t < TTS_CACHE_TTL_MS) :
    cacheGet [(k, v, t)] k now = (some v, [(k, v, now)]) := by
  simp [cacheGet, h]

/-- C5: for the caching remote provider (`HttpCoquiTTS`), starting from an
empty cache: a successful `synth` call issues one network request, returns
the network's bytes and inserts them under the key computed from the
sanitized text and locale; a second call whose text sanitizes identically,
made within the TTL, returns byte-for-byte the same audio from the cache
without issuing another network request; and a failed call wraps the error
and inserts nothing into the cache. -/
theorem claim_C5_cache_insert_hit_and_failure (sha1 : String → String)
    (netS netF : Nat → Except String (List Nat))
    (text1 text2 : String) (locale : Locale) (bytes : List Nat) (e : String)
    (t1 t2 : Nat)
    (hsan : sanitizeForTTS text2 = sanitizeForTTS text1)
    (hS : netS 0 = Except.ok bytes) (hF : netF 0 = Except.error e)
    (ht : t2 - t1 < TTS_CACHE_TTL_MS) :
    (httpCoquiSynth sha1 netS text1 locale t1 ⟨[], 0⟩).1 = Except.ok bytes ∧
    (httpCoquiSynth sha1 netS text1 locale t1 ⟨[], 0⟩).2 =
      ⟨[(getCacheKey sha1 (sanitizeForTTS text1) (localeCode locale), bytes, t1)], 1⟩ ∧
    (httpCoquiSynth sha1 netS text2 locale t2
        (httpCoquiSynth sha1 netS text1 locale t1 ⟨[], 0⟩).2).1 = Except.ok bytes ∧
    (httpCoquiSynth sha1 netS text2 locale t2
        (httpCoquiSynth sha1 netS text1 locale t1 ⟨[], 0⟩).2).2.netCalls = 1 ∧
    (httpCoquiSynth sha1 netF text1 locale t1 ⟨[], 0⟩).1 =
      Except.error ("TTS synthesis failed: " ++ e) ∧
    (httpCoquiSynth sha1 netF text1 locale t1 ⟨[], 0⟩).2.cache = [] := by
  have hrun1 : httpCoquiSynth sha1 netS text1 locale t1 ⟨[], 0⟩ =
      (Except.ok bytes,
        ⟨[(getCacheKey sha1 (sanitizeForTTS text1) (localeCode locale), bytes, t1)], 1⟩) := by
    simp only [httpCoquiSynth, cacheGet_nil, hS, cacheSet_nil]
  have hkey2 : getCacheKey sha1 (sanitizeForTTS text2) (localeCode locale) =
      getCacheKey sha1 (sanitizeForTTS text1) (localeCode locale) := by rw [hsan]
  have hrun2 : httpCoquiSynth sha1 netS text2 locale t2
      (⟨[(getCacheKey sha1 (sanitizeForTTS text1) (localeCode locale), bytes, t1)], 1⟩ :
        HttpState) =
      (Except.ok bytes,
        ⟨[(getCacheKey sha1 (sanitizeForTTS text1) (localeCode locale), bytes, t2)], 1⟩) := by
    simp only [httpCoquiSynth, hkey2]
    rw [cacheGet_hit _ _ _ _ ht]
  have hrunF : httpCoquiSynth sha1 netF text1 locale t1 ⟨[], 0⟩ =
      (Except.error ("TTS synthesis failed: " ++ e), ⟨[], 1⟩) := by
    simp only [httpCoquiSynth, cacheGet_nil, hF]
  refine ⟨?_, ?_, ?_, ?_, ?_, ?_⟩
  · rw [hrun1]
  · rw [hrun1]
  · rw [hrun1, hrun2]
  · rw [hrun1, hrun2]
  · rw [hrunF]
  · rw [hrunF]

theorem claim_C5_cache_insert_hit_and_failure_witness :
    sanitizeForTTS "hi" = sanitizeForTTS "hi" ∧
    (1000 : Nat) - 0 < TTS_CACHE_TTL_MS ∧
    (httpCoquiSynth (fun _ => "h") (fun _ => Except.ok [1, 2]) "hi" Locale.enIN 1000
        (httpCoquiSynth (fun _ => "h") (fun _ => Except.ok [1, 2]) "hi" Locale.enIN 0
          ⟨[], 0⟩).2).1 = Except.ok [1, 2] ∧
    (httpCoquiSynth (fun _ => "h") (fun _ => Except.ok [1, 2]) "hi" Locale.enIN 1000
        (httpCoquiSynth (fun _ => "h") (fun _ => Except.ok [1, 2]) "hi" Locale.enIN 0
          ⟨[], 0⟩).2).2.netCalls = 1 :=
  ⟨rfl, by decide,
    (claim_C5_cache_insert_hit_and_failure (fun _ => "h") (fun _ => Except.ok [1, 2])
      (fun _ => Except.error "boom") "hi" "hi" Locale.enIN [1, 2] "boom" 0 1000 rfl rfl rfl
      (by decide)).2.2.1,
    (claim_C5_cache_insert_hit_and_failure (fun _ => "h") (fun _ => Except.ok [1, 2])
      (fun _ => Except.error "boom") "hi" "hi" Locale.enIN [1, 2] "boom" 0 1000 rfl rfl rfl
      (by decide)).2.2.2.1⟩

/-- Completely empty environment. -/
def envNothing : Env :=
  { TTS_PROVIDER := none, TTS_KEY := none, AZURE_REGION := none, TTS_HTTP_URL := none }

theorem claim_C10_absent_provider_defaults_to_azure_witness :
    makeTTS envNothing = Except.error "TTS_KEY is required in environment variables" ∧
    (∃ cfg, makeTTS envFull = Except.ok (TTSEngineV.azure cfg)) :=
  ⟨(claim_C10_absent_provider_defaults_to_azure envNothing (Or.inl rfl)).1 (by decide),
   (claim_C10_absent_provider_defaults_to_azure envFull (Or.inl rfl)).2
     (by decide) (by decide)⟩

end TTSAgent
